import Mathlib

/-!
Verification of the connection-lifecycle core of the `aiohttp` forward driver
(`nonebot/drivers/aiohttp.py`).

The Python code is asynchronous; we embed it shallowly as pure Lean functions
that return the *trace of observable events* an execution produces, with every
environment interaction (establishment results, HTTP responses, websocket
frames, hook outcomes, signal-triggered task scheduling) supplied as explicit
inputs.  Awaited suspensions (`await asyncio.sleep`, `await gather`) appear as
events; coroutines that are created but never awaited (fire-and-forget
`asyncio.create_task`, and the bare `asyncio.sleep(...)` on the reconnect
path) appear as distinct "spawn"/"unawaited" events, since they do not delay
the loop that issued them.
-/

namespace Aiohttp

/-- Bytes, as a list of byte values (Python `bytes`). -/
abbrev Bytes := List Nat

/-- `HTTPConnection` values that can be passed to `Driver.setup`.
`HTTPRequest` and `WebSocket` are the two accepted subclasses; every other
`HTTPConnection` subclass is rejected by the `isinstance` check.  The claims
never read the descriptor fields, so each carries an opaque tag. -/
inductive HTTPConnection
  | httpRequest (tag : Nat)
  | webSocket (tag : Nat)
  | otherConnection (tag : Nat)
  deriving DecidableEq, Repr

/-- `isinstance(request, (HTTPRequest, WebSocket))` from `Driver.setup`. -/
def HTTPConnection.isAvailableRequest : HTTPConnection → Bool
  | .httpRequest _ => true
  | .webSocket _ => true
  | .otherConnection _ => false

/-- The `RequestSetup` dataclass: one registered connection request.
Intervals are modelled as rationals (Python floats only ever hold the
configured cadence values here). -/
structure RequestSetup where
  adapter : String
  request : HTTPConnection
  poll_interval : ℚ
  reconnect_interval : ℚ
  deriving DecidableEq, Repr

/-- The default value `3.` of `poll_interval` in `Driver.setup`. -/
def defaultPollInterval : ℚ := 3

/-- The default value `3.` of `reconnect_interval` in `Driver.setup`. -/
def defaultReconnectInterval : ℚ := 3

/-- Errors the driver raises.  `typeError` is the `TypeError` from
`Driver.setup`; `unknownAdapter` is the `KeyError` from the
`self._adapters[adapter]` lookup; `setupFailed` is
`SetupFailed("Bot self_id get failed")`. -/
inductive DriverError
  | typeError
  | unknownAdapter
  | setupFailed
  deriving DecidableEq, Repr

/-- `Driver.setup`: validate the request kind, then append one
`RequestSetup` to `self.requests`.  Raising leaves the list unchanged;
no other effect (no network activity) occurs. -/
def Driver.setup (requests : List RequestSetup) (adapter : String)
    (request : HTTPConnection) (poll_interval : ℚ) (reconnect_interval : ℚ) :
    Except DriverError (List RequestSetup) :=
  if request.isAvailableRequest then
    .ok (requests ++ [⟨adapter, request, poll_interval, reconnect_interval⟩])
  else
    .error .typeError

/-- `Driver.setup` invoked with both intervals left at their defaults. -/
def Driver.setupDefault (requests : List RequestSetup) (adapter : String)
    (request : HTTPConnection) : Except DriverError (List RequestSetup) :=
  Driver.setup requests adapter request defaultPollInterval defaultReconnectInterval

/-! ## Session establishment (`_http_setup` / `_ws_setup`) -/

/-- An adapter class from the adapter registry (external collaborator).
`check_permission` is its permission-check capability: the `self_id`
component of the `(self_id, metadata)` pair it returns, with `none`
modelling an absent id (Python `None`) and `some ""` an empty one. -/
structure AdapterClass where
  check_permission : Option String
  deriving DecidableEq, Repr

/-- A connected bot: `BotClass(self_id, request)`. -/
structure Bot where
  self_id : String
  request : HTTPConnection
  deriving DecidableEq, Repr

/-- The shared connected-bots table, keyed by `self_id`. -/
abbrev BotTable := List (String × Bot)

/-- The adapter registry `self._adapters` (external collaborator). -/
abbrev AdapterRegistry := List (String × AdapterClass)

/-- `self._adapters[adapter]`: dictionary lookup, `none` for a `KeyError`. -/
def AdapterRegistry.find (reg : AdapterRegistry) (adapter : String) :
    Option AdapterClass :=
  (reg.lookup adapter)

/-- Python truthiness of the `self_id` value: `not self_id` is true exactly
when the id is absent (`None`) or the empty string. -/
def selfIdTruthy : Option String → Bool
  | none => false
  | some s => !s.isEmpty

/-- Modelled from the spec: `_bot_connect` (defined on the `ForwardDriver`
base class, which is not under `src/`) inserts the bot into the shared
connected-bots table keyed by `selfId`. -/
def bot_connect (bots : BotTable) (b : Bot) : BotTable :=
  (b.self_id, b) :: bots

/-- Observable effects of one establishment. -/
inductive SetupEvent
  | botConnect (self_id : String)
  | spawnHttpLoop (self_id : String) (poll_interval : ℚ)
  | spawnWsLoop (self_id : String) (reconnect_interval : ℚ)
  deriving DecidableEq, Repr

/-- `Driver._http_setup`: look up the adapter class (`KeyError` if absent),
run its permission check, raise `SetupFailed` on a falsy `self_id`,
construct the bot, connect it, then spawn the poll loop as a task. -/
def Driver.http_setup (adapters : AdapterRegistry) (adapter : String)
    (request : HTTPConnection) (poll_interval : ℚ) (bots : BotTable) :
    Except DriverError (BotTable × List SetupEvent) :=
  match adapters.find adapter with
  | none => .error .unknownAdapter
  | some BotClass =>
    match BotClass.check_permission with
    | none => .error .setupFailed
    | some self_id =>
      if self_id.isEmpty then .error .setupFailed
      else
        let bot : Bot := ⟨self_id, request⟩
        .ok (bot_connect bots bot,
             [.botConnect self_id, .spawnHttpLoop self_id poll_interval])

/-- `Driver._ws_setup`: identical to `_http_setup` except that it spawns the
websocket reconnect loop. -/
def Driver.ws_setup (adapters : AdapterRegistry) (adapter : String)
    (request : HTTPConnection) (reconnect_interval : ℚ) (bots : BotTable) :
    Except DriverError (BotTable × List SetupEvent) :=
  match adapters.find adapter with
  | none => .error .unknownAdapter
  | some BotClass =>
    match BotClass.check_permission with
    | none => .error .setupFailed
    | some self_id =>
      if self_id.isEmpty then .error .setupFailed
      else
        let bot : Bot := ⟨self_id, request⟩
        .ok (bot_connect bots bot,
             [.botConnect self_id, .spawnWsLoop self_id reconnect_interval])

/-! ## The maintenance loops (`_http_loop` / `_ws_loop`) -/

/-- Observable events of a maintenance loop.  `sleep` is an awaited
`asyncio.sleep` (a real suspension); `unawaitedSleep` is the bare
`asyncio.sleep(...)` call on line 227, whose coroutine is created but never
awaited and therefore delays nothing; `spawnHandleMessage` is the
fire-and-forget `asyncio.create_task(bot.handle_message(...))`. -/
inductive LoopEvent
  | openSession
  | readBody
  | spawnHandleMessage (data : Bytes)
  | logRequestError
  | wsConnect
  | logWsFrameError
  | sleep (d : ℚ)
  | unawaitedSleep (d : ℚ)
  | logUnexpected (msg : String)
  | disconnect (self_id : String)
  deriving DecidableEq, Repr

/-- How a `while True` maintenance loop can be exited: the awaited point
raises `asyncio.CancelledError`, or some other exception escapes. -/
inductive LoopExit
  | cancelled
  | unexpected
  deriving DecidableEq, Repr

/-- The `except CancelledError: pass / except Exception: log` tail shared by
both loops: cancellation is silent, any other exception logs the given
fatal message. -/
def exitEvents (exit : LoopExit) (fatalMsg : String) : List LoopEvent :=
  match exit with
  | .cancelled => []
  | .unexpected => [.logUnexpected fatalMsg]

/-- `response.raise_for_status()` (external `aiohttp` collaborator, per the
spec): a non-2xx status raises `ClientResponseError`. -/
def is2xx (status : Nat) : Bool := 200 ≤ status && status < 300

/-- One HTTP response delivered to a poll-loop iteration. -/
structure PollResponse where
  status : Nat
  body : Bytes
  deriving DecidableEq, Repr

/-- One iteration of the `while True` body of `_http_loop`: issue the
request; a non-2xx status raises `ClientResponseError`, which is caught and
logged; on 2xx the body is read and dispatched fire-and-forget; both paths
then await `asyncio.sleep(poll_interval)`. -/
def httpLoopIter (resp : PollResponse) (poll_interval : ℚ) : List LoopEvent :=
  (if is2xx resp.status then
    [.readBody, .spawnHandleMessage resp.body]
  else
    [.logRequestError]) ++ [.sleep poll_interval]

/-- `Driver._http_loop`: open one session for the loop's lifetime, run the
polling iterations the environment delivers, then exit by cancellation or
unexpected exception; the `finally` block disconnects the bot. -/
def Driver.http_loop (bot : Bot) (responses : List PollResponse)
    (exit : LoopExit) (poll_interval : ℚ) : List LoopEvent :=
  .openSession :: responses.flatMap (httpLoopIter · poll_interval)
    ++ exitEvents exit "Unexpected exception occurred while http polling"
    ++ [.disconnect bot.self_id]

/-- A websocket frame as delivered by `async for msg in ws`.  `otherFrame`
is any message type the `if/elif` chain does not match (ignored). -/
inductive WSFrame
  | text (s : String)
  | binary (b : Bytes)
  | error
  | otherFrame
  deriving DecidableEq, Repr

/-- `msg.data.encode()`: the UTF-8 byte encoding of a text frame. -/
def encodeUTF8 (s : String) : Bytes := s.toUTF8.toList.map (·.toNat)

/-- The inner `async for` loop of `_ws_loop` over one connection's frames:
text frames are dispatched fire-and-forget as their byte encoding, binary
frames as-is, an error frame is logged and breaks the loop; any other frame
type falls through the `elif` chain and is ignored. -/
def wsInnerLoop : List WSFrame → List LoopEvent
  | [] => []
  | .text s :: rest => .spawnHandleMessage (encodeUTF8 s) :: wsInnerLoop rest
  | .binary b :: rest => .spawnHandleMessage b :: wsInnerLoop rest
  | .error :: _ => [.logWsFrameError]
  | .otherFrame :: rest => wsInnerLoop rest

/-- The payload a data frame is dispatched with: a text frame as its byte
encoding, a binary frame as-is; error and unmatched frames dispatch
nothing. -/
def dataDispatch : WSFrame → Option Bytes
  | .text s => some (encodeUTF8 s)
  | .binary b => some b
  | .error => none
  | .otherFrame => none

/-- One iteration of the outer `while True` of `_ws_loop`: connect the
websocket, consume its frames, and then evaluate `asyncio.sleep(
reconnect_interval)` WITHOUT `await` (line 227): the coroutine is created
and discarded, so no suspension happens before the next connection. -/
def wsOuterIter (frames : List WSFrame) (reconnect_interval : ℚ) :
    List LoopEvent :=
  .wsConnect :: wsInnerLoop frames ++ [.unawaitedSleep reconnect_interval]

/-- `Driver._ws_loop`: open one session for the loop's lifetime, run the
reconnect iterations the environment delivers (one frame list per
connection), then exit by cancellation or unexpected exception; the
`finally` block disconnects the bot. -/
def Driver.ws_loop (bot : Bot) (connections : List (List WSFrame))
    (exit : LoopExit) (reconnect_interval : ℚ) : List LoopEvent :=
  .openSession :: connections.flatMap (wsOuterIter · reconnect_interval)
    ++ exitEvents exit "Unexpected exception occurred while websocket loop"
    ++ [.disconnect bot.self_id]

/-! ## Startup orchestration (`Driver.startup`) -/

/-- Whether `await asyncio.gather(*cors)` (with `return_exceptions` left
false) raises: it does exactly when some child raised. -/
def gatherRaises {ε α : Type} (results : List (Except ε α)) : Bool :=
  results.any fun r => !r.toBool

/-- Observable events of one `startup()` call. -/
inductive StartupEvent
  | establishEnd (i : Nat)
  | logStartupFailed
  | spawnShutdownTask
  | hookRun (i : Nat)
  | logStartupHookError
  deriving DecidableEq, Repr

/-- `Driver.startup`: gather all establishments; if that gather raises, log
"Application startup failed. Exiting.", schedule `shutdown` as a task and
return — the startup-hook code is never reached.  Otherwise gather every
registered startup hook as one batch; if that batch raises, log
"Error when running startup function. Ignored!" and return normally.
The environment supplies each establishment's and each hook's outcome;
`establishEnd i` marks establishment `i` completing inside the first
gather (emitted only on the all-succeeded path, where the gather has
awaited every child). -/
def Driver.startup (estResults : List (Except DriverError Unit))
    (hookResults : List (Except String Unit)) : List StartupEvent :=
  if gatherRaises estResults then
    [.logStartupFailed, .spawnShutdownTask]
  else
    ((List.range estResults.length).map .establishEnd)
      ++ ((List.range hookResults.length).map .hookRun)
      ++ (if gatherRaises hookResults then [.logStartupHookError] else [])

/-! ## Shutdown (`Driver.shutdown`) -/

/-- The scheduler-visible status of an `asyncio` task. -/
inductive TaskStatus
  | running
  | finished
  | cancelled
  deriving DecidableEq, Repr

/-- A scheduled unit of work in the event loop. -/
structure Task where
  tid : Nat
  status : TaskStatus
  deriving DecidableEq, Repr

/-- `task.cancel()`: requests cancellation of a running task; on a task that
is already finished or already cancelled it changes nothing. -/
def Task.cancel (t : Task) : Task :=
  match t.status with
  | .running => { t with status := .cancelled }
  | _ => t

/-- Observable events of one `shutdown()` call. -/
inductive ShutdownEvent
  | shutdownHookRun (i : Nat)
  | logShutdownHookError
  | cancelRequested (tid : Nat)
  | joinAllSuppressed
  | loopStop
  deriving DecidableEq, Repr

/-- `Driver.shutdown`: gather every registered shutdown hook as one batch
(a failure is logged "Error when running shutdown function. Ignored!" and
swallowed); collect every task of the loop other than the current one;
cancel each of them; `await asyncio.gather(*tasks, return_exceptions=True)`
(exceptions suppressed, never raises); finally `loop.stop()`.  Returns the
event trace and the resulting task states. -/
def Driver.shutdown (hookResults : List (Except String Unit))
    (allTasks : List Task) (current : Nat) :
    List ShutdownEvent × List Task :=
  let hookEvents :=
    ((List.range hookResults.length).map ShutdownEvent.shutdownHookRun)
      ++ (if gatherRaises hookResults then [ShutdownEvent.logShutdownHookError]
          else [])
  let tasks := allTasks.filter fun t => t.tid ≠ current
  (hookEvents ++ tasks.map (fun t => ShutdownEvent.cancelRequested t.tid)
     ++ [ShutdownEvent.joinAllSuppressed, ShutdownEvent.loopStop],
   allTasks.map fun t => if t.tid = current then t else t.cancel)

/-! ## Two concurrent `shutdown` invocations

`shutdown` has no started-guard (the body opens with `# TODO: shutdown`), so
a second invocation — e.g. a signal handler scheduling `shutdown` while a
startup-failure-triggered `shutdown` is awaiting its hook batch — runs the
whole body again.  We model each invocation as a task with two atomic
segments separated by its awaits, and execute an explicit interleaving. -/

/-- The segments of a `shutdown` invocation between suspension points:
`runHooks` builds the hook coroutines and awaits their gather; `sweep`
collects the other tasks, cancels them, awaits the suppressed join and stops
the loop. -/
inductive SDPhase
  | runHooks
  | sweep
  | done
  deriving DecidableEq, Repr

/-- One in-flight `shutdown` invocation. -/
structure SDTask where
  tid : Nat
  phase : SDPhase
  cancelled : Bool
  deriving DecidableEq, Repr

/-- Run the next segment of invocation `tid`.  A task whose pending await
was cancelled resumes with `CancelledError`, which `shutdown` does not
catch: the task terminates silently with no further events.  `hooks` is the
number of registered shutdown hooks; each `runHooks` segment runs the whole
batch. -/
def sdStep (hooks : Nat) (st : List SDTask) (tid : Nat) :
    List SDTask × List ShutdownEvent :=
  match st.find? (fun t => t.tid = tid) with
  | none => (st, [])
  | some t =>
    if t.phase = .done then (st, [])
    else if t.cancelled then
      (st.map fun u => if u.tid = tid then { u with phase := .done } else u, [])
    else
      match t.phase with
      | .runHooks =>
        (st.map fun u => if u.tid = tid then { u with phase := .sweep } else u,
         (List.range hooks).map ShutdownEvent.shutdownHookRun)
      | .sweep =>
        let others := st.filter fun u => u.tid ≠ tid && u.phase ≠ SDPhase.done
        (st.map fun u =>
           if u.tid = tid then { u with phase := .done }
           else if u.phase = SDPhase.done then u
           else { u with cancelled := true },
         (others.map fun u => ShutdownEvent.cancelRequested u.tid)
           ++ [ShutdownEvent.joinAllSuppressed, ShutdownEvent.loopStop])
      | .done => (st, [])

/-- Execute a cooperative schedule (a list of task ids) over in-flight
`shutdown` invocations, collecting the combined event trace. -/
def sdRun (hooks : Nat) (st : List SDTask) :
    List Nat → List SDTask × List ShutdownEvent
  | [] => (st, [])
  | tid :: rest =>
    let step := sdStep hooks st tid
    let tail := sdRun hooks step.1 rest
    (tail.1, step.2 ++ tail.2)

/-- Two concurrent `shutdown` invocations (task ids 0 and 1), both freshly
scheduled. -/
def twoShutdowns : List SDTask :=
  [⟨0, .runHooks, false⟩, ⟨1, .runHooks, false⟩]

/-- The interleaving in which the second invocation starts while the first
awaits its hook-batch gather: 0 runs its hooks, 1 runs its hooks, 0 sweeps
(cancelling 1), 1 resumes cancelled and terminates. -/
def shutdownRaceTrace (hooks : Nat) : List ShutdownEvent :=
  (sdRun hooks twoShutdowns [0, 1, 0, 1]).2

/-! ## Helper lemmas -/

/-- In `A ++ B`, a position holding an element with a property no element of
`A` has lies at or beyond `A.length`. -/
theorem length_le_pos_of_prop {α : Type} {A B : List α} {P : α → Prop}
    {k : Nat} {x : α} (hA : ∀ a ∈ A, ¬ P a) (hk : (A ++ B).get? k = some x)
    (hx : P x) : A.length ≤ k := by
  by_contra hlt
  push_neg at hlt
  rw [List.get?_append hlt] at hk
  exact hA x (List.get?_mem hk) hx

/-- In `A ++ B`, a position holding an element with a property no element of
`B` has lies strictly inside `A`. -/
theorem pos_lt_length_of_prop {α : Type} {A B : List α} {P : α → Prop}
    {k : Nat} {x : α} (hB : ∀ b ∈ B, ¬ P b) (hk : (A ++ B).get? k = some x)
    (hx : P x) : k < A.length := by
  by_contra hle
  push_neg at hle
  rw [List.get?_append_right hle] at hk
  exact hB x (List.get?_mem hk) hx

/-- Every event the inner frame loop emits is a fire-and-forget dispatch or
the error-frame log. -/
theorem wsInnerLoop_shape (frames : List WSFrame) :
    ∀ e ∈ wsInnerLoop frames,
      (∃ d, e = LoopEvent.spawnHandleMessage d) ∨ e = LoopEvent.logWsFrameError := by
  induction frames with
  | nil => simp [wsInnerLoop]
  | cons f rest ih =>
    cases f with
    | text s =>
      intro e he
      rcases List.mem_cons.mp he with h | h
      · exact Or.inl ⟨encodeUTF8 s, h⟩
      · exact ih e h
    | binary b =>
      intro e he
      rcases List.mem_cons.mp he with h | h
      · exact Or.inl ⟨b, h⟩
      · exact ih e h
    | error => intro e he; simp [wsInnerLoop] at he; exact Or.inr he
    | otherFrame => exact ih

/-- Every event a poll-loop iteration emits is a body read, a dispatch, the
request-error log, or the awaited interval sleep. -/
theorem httpLoopIter_shape (resp : PollResponse) (p : ℚ) :
    ∀ e ∈ httpLoopIter resp p,
      e = LoopEvent.readBody ∨ (∃ d, e = LoopEvent.spawnHandleMessage d)
        ∨ e = LoopEvent.logRequestError ∨ e = LoopEvent.sleep p := by
  intro e he
  unfold httpLoopIter at he
  by_cases h : is2xx resp.status
  · simp [h] at he
    rcases he with h1 | h1 | h1
    · exact Or.inl h1
    · exact Or.inr (Or.inl ⟨resp.body, h1⟩)
    · exact Or.inr (Or.inr (Or.inr h1))
  · simp [h] at he
    rcases he with h1 | h1
    · exact Or.inr (Or.inr (Or.inl h1))
    · exact Or.inr (Or.inr (Or.inr h1))

/-- Every event an outer reconnect iteration emits is the connect, an inner
frame event, or the unawaited-sleep marker. -/
theorem wsOuterIter_shape (frames : List WSFrame) (r : ℚ) :
    ∀ e ∈ wsOuterIter frames r,
      e = LoopEvent.wsConnect ∨ (∃ d, e = LoopEvent.spawnHandleMessage d)
        ∨ e = LoopEvent.logWsFrameError ∨ e = LoopEvent.unawaitedSleep r := by
  intro e he
  unfold wsOuterIter at he
  rcases List.mem_cons.mp he with h | h
  · exact Or.inl h
  · rcases List.mem_append.mp h with h1 | h1
    · rcases wsInnerLoop_shape frames e h1 with h2 | h2
      · exact Or.inr (Or.inl h2)
      · exact Or.inr (Or.inr (Or.inl h2))
    · simp at h1
      exact Or.inr (Or.inr (Or.inr h1))

/-- The poll iterations of a run never emit a disconnect. -/
theorem disconnect_not_mem_httpIters (sid : String) (p : ℚ)
    (responses : List PollResponse) :
    LoopEvent.disconnect sid ∉ responses.flatMap (httpLoopIter · p) := by
  intro hmem
  rcases List.mem_flatMap.mp hmem with ⟨resp, _, hin⟩
  rcases httpLoopIter_shape resp p _ hin with h | ⟨d, h⟩ | h | h <;> simp at h

/-- The poll iterations of a run never emit the fatal unexpected-exception
log. -/
theorem logUnexpected_not_mem_httpIters (m : String) (p : ℚ)
    (responses : List PollResponse) :
    LoopEvent.logUnexpected m ∉ responses.flatMap (httpLoopIter · p) := by
  intro hmem
  rcases List.mem_flatMap.mp hmem with ⟨resp, _, hin⟩
  rcases httpLoopIter_shape resp p _ hin with h | ⟨d, h⟩ | h | h <;> simp at h

/-- The reconnect iterations of a run never emit a disconnect. -/
theorem disconnect_not_mem_wsIters (sid : String) (r : ℚ)
    (connections : List (List WSFrame)) :
    LoopEvent.disconnect sid ∉ connections.flatMap (wsOuterIter · r) := by
  intro hmem
  rcases List.mem_flatMap.mp hmem with ⟨fs, _, hin⟩
  rcases wsOuterIter_shape fs r _ hin with h | ⟨d, h⟩ | h | h <;> simp at h

/-- The reconnect iterations of a run never emit the fatal
unexpected-exception log. -/
theorem logUnexpected_not_mem_wsIters (m : String) (r : ℚ)
    (connections : List (List WSFrame)) :
    LoopEvent.logUnexpected m ∉ connections.flatMap (wsOuterIter · r) := by
  intro hmem
  rcases List.mem_flatMap.mp hmem with ⟨fs, _, hin⟩
  rcases wsOuterIter_shape fs r _ hin with h | ⟨d, h⟩ | h | h <;> simp at h

/-- The reconnect iterations of a run never emit an awaited sleep. -/
theorem sleep_not_mem_wsIters (d r : ℚ) (connections : List (List WSFrame)) :
    LoopEvent.sleep d ∉ connections.flatMap (wsOuterIter · r) := by
  intro hmem
  rcases List.mem_flatMap.mp hmem with ⟨fs, _, hin⟩
  rcases wsOuterIter_shape fs r _ hin with h | ⟨dd, h⟩ | h | h <;> simp at h

/-- Each outer reconnect iteration emits the unawaited-sleep marker exactly
once. -/
theorem unawaited_count_wsOuterIter (frames : List WSFrame) (r : ℚ) :
    (wsOuterIter frames r).count (LoopEvent.unawaitedSleep r) = 1 := by
  unfold wsOuterIter
  have hz : (wsInnerLoop frames).count (LoopEvent.unawaitedSleep r) = 0 := by
    rw [List.count_eq_zero]
    intro hmem
    rcases wsInnerLoop_shape frames _ hmem with ⟨d, h⟩ | h <;> simp at h
  simp [List.count_cons, List.count_append, hz]

/-- Dispatching over an error-free frame list matches the frames' payloads
in arrival order. -/
theorem wsInnerLoop_no_error (frames : List WSFrame)
    (h : WSFrame.error ∉ frames) :
    wsInnerLoop frames =
      (frames.filterMap dataDispatch).map LoopEvent.spawnHandleMessage := by
  induction frames with
  | nil => simp [wsInnerLoop]
  | cons f rest ih =>
    have hrest : WSFrame.error ∉ rest := fun hr => h (List.mem_cons_of_mem _ hr)
    cases f with
    | text s => simp [wsInnerLoop, dataDispatch, ih hrest]
    | binary b => simp [wsInnerLoop, dataDispatch, ih hrest]
    | error => exact absurd (List.mem_cons_self _ _) h
    | otherFrame => simp [wsInnerLoop, dataDispatch, ih hrest]

/-- Frames after the first error frame are never processed: the inner loop
dispatches the error-free prefix in order, logs, and breaks. -/
theorem wsInnerLoop_until_error (pre post : List WSFrame)
    (h : WSFrame.error ∉ pre) :
    wsInnerLoop (pre ++ WSFrame.error :: post) =
      (pre.filterMap dataDispatch).map LoopEvent.spawnHandleMessage
        ++ [LoopEvent.logWsFrameError] := by
  induction pre with
  | nil => simp [wsInnerLoop]
  | cons f rest ih =>
    have hrest : WSFrame.error ∉ rest := fun hr => h (List.mem_cons_of_mem _ hr)
    cases f with
    | text s => simp [wsInnerLoop, dataDispatch, ih hrest]
    | binary b => simp [wsInnerLoop, dataDispatch, ih hrest]
    | error => exact absurd (List.mem_cons_self _ _) h
    | otherFrame => simp [wsInnerLoop, dataDispatch, ih hrest]

/-! ## Claim theorems -/

/-- C10: `requestConnection` (`Driver.setup`) raises `TypeError`
(`InvalidRequestKind`) on a descriptor that is neither an `HTTPRequest` nor a
`WebSocket`, leaving the registered list unchanged (the check precedes the
append, and an error result carries no new list); otherwise it appends
exactly one `RequestSetup` with the given adapter, descriptor and intervals,
whose defaults are both `3.0`.  The function is pure registration: it
produces no events. -/
theorem setup_rejects_invalid_kind_and_appends (requests : List RequestSetup)
    (adapter : String) (request : HTTPConnection) (p r : ℚ) :
    (request.isAvailableRequest = false →
        Driver.setup requests adapter request p r = .error .typeError) ∧
    (request.isAvailableRequest = true →
        Driver.setup requests adapter request p r =
          .ok (requests ++ [⟨adapter, request, p, r⟩])) ∧
    defaultPollInterval = 3 ∧ defaultReconnectInterval = 3 ∧
    Driver.setupDefault requests adapter request =
      Driver.setup requests adapter request 3 3 := by
  refine ⟨fun h => ?_, fun h => ?_, rfl, rfl, rfl⟩
  · simp [Driver.setup, h]
  · simp [Driver.setup, h]

/-- Witness for C10 at concrete inputs. -/
theorem setup_rejects_invalid_kind_and_appends_witness :
    Driver.setup [] "a" (HTTPConnection.otherConnection 0) 3 3 =
      .error .typeError ∧
    Driver.setup [] "a" (HTTPConnection.httpRequest 0) 3 3 =
      .ok [⟨"a", HTTPConnection.httpRequest 0, 3, 3⟩] :=
  ⟨(setup_rejects_invalid_kind_and_appends [] "a"
      (HTTPConnection.otherConnection 0) 3 3).1 rfl,
   (setup_rejects_invalid_kind_and_appends [] "a"
      (HTTPConnection.httpRequest 0) 3 3).2.1 rfl⟩

/-- C5: a poll-loop iteration on a non-2xx response logs the request error,
then awaits `pollInterval`, and never disconnects the bot (the loop carries
on with the remaining responses); on a 2xx response it reads the full body,
dispatches it fire-and-forget to `handle_message`, then awaits
`pollInterval`.  The final conjunct shows the loop continues with the rest
of its iterations after either outcome. -/
theorem http_poll_iteration_behavior (resp : PollResponse) (p : ℚ) (bot : Bot)
    (rest : List PollResponse) (exit : LoopExit) :
    (is2xx resp.status = false →
        httpLoopIter resp p = [.logRequestError, .sleep p]) ∧
    (is2xx resp.status = true →
        httpLoopIter resp p =
          [.readBody, .spawnHandleMessage resp.body, .sleep p]) ∧
    (∀ sid, LoopEvent.disconnect sid ∉ httpLoopIter resp p) ∧
    Driver.http_loop bot (resp :: rest) exit p =
      .openSession ::
        (httpLoopIter resp p ++ (Driver.http_loop bot rest exit p).tail) := by
  refine ⟨fun h => ?_, fun h => ?_, fun sid hmem => ?_, ?_⟩
  · simp [httpLoopIter, h]
  · simp [httpLoopIter, h]
  · rcases httpLoopIter_shape resp p _ hmem with h | ⟨d, h⟩ | h | h <;> simp at h
  · simp [Driver.http_loop, List.flatMap_cons, List.append_assoc]

/-- Witness for C5 at concrete inputs. -/
theorem http_poll_iteration_behavior_witness :
    httpLoopIter ⟨404, []⟩ 3 = [.logRequestError, .sleep 3] ∧
    httpLoopIter ⟨200, [7]⟩ 3 =
      [.readBody, .spawnHandleMessage [7], .sleep 3] :=
  ⟨(http_poll_iteration_behavior ⟨404, []⟩ 3 ⟨"b", .httpRequest 0⟩ []
      .cancelled).1 rfl,
   (http_poll_iteration_behavior ⟨200, [7]⟩ 3 ⟨"b", .httpRequest 0⟩ []
      .cancelled).2.1 rfl⟩

/-- C2: on every exit path of a poll or reconnect loop the bot is removed
from the connected-bots table exactly once (the `finally` finalizer emits
exactly one disconnect); cooperative cancellation terminates the loop with
no fatal log, while an unexpected exception logs exactly one fatal message
and terminates only that loop (the trace ends — each loop is a separate
run, so no other loop's trace is affected). -/
theorem loop_exit_disconnects_once (bot : Bot)
    (responses : List PollResponse) (connections : List (List WSFrame))
    (exit : LoopExit) (p r : ℚ) :
    (Driver.http_loop bot responses exit p).count
      (LoopEvent.disconnect bot.self_id) = 1 ∧
    (Driver.ws_loop bot connections exit r).count
      (LoopEvent.disconnect bot.self_id) = 1 ∧
    (∀ m, LoopEvent.logUnexpected m ∉
        Driver.http_loop bot responses .cancelled p) ∧
    (∀ m, LoopEvent.logUnexpected m ∉
        Driver.ws_loop bot connections .cancelled r) ∧
    (Driver.http_loop bot responses .unexpected p).count
      (LoopEvent.logUnexpected
        "Unexpected exception occurred while http polling") = 1 ∧
    (Driver.ws_loop bot connections .unexpected r).count
      (LoopEvent.logUnexpected
        "Unexpected exception occurred while websocket loop") = 1 := by
  have hd1 : (responses.flatMap (httpLoopIter · p)).count
      (LoopEvent.disconnect bot.self_id) = 0 :=
    List.count_eq_zero.mpr (disconnect_not_mem_httpIters _ _ _)
  have hd2 : (connections.flatMap (wsOuterIter · r)).count
      (LoopEvent.disconnect bot.self_id) = 0 :=
    List.count_eq_zero.mpr (disconnect_not_mem_wsIters _ _ _)
  have hl1 : ∀ m, (responses.flatMap (httpLoopIter · p)).count
      (LoopEvent.logUnexpected m) = 0 :=
    fun m => List.count_eq_zero.mpr (logUnexpected_not_mem_httpIters _ _ _)
  have hl2 : ∀ m, (connections.flatMap (wsOuterIter · r)).count
      (LoopEvent.logUnexpected m) = 0 :=
    fun m => List.count_eq_zero.mpr (logUnexpected_not_mem_wsIters _ _ _)
  refine ⟨?_, ?_, fun m hm => ?_, fun m hm => ?_, ?_, ?_⟩
  · cases exit <;>
      simp [Driver.http_loop, exitEvents, List.count_cons, List.count_append, hd1]
  · cases exit <;>
      simp [Driver.ws_loop, exitEvents, List.count_cons, List.count_append, hd2]
  · simp [Driver.http_loop, exitEvents] at hm
    exact logUnexpected_not_mem_httpIters m p responses (List.mem_flatMap.mpr hm)
  · simp [Driver.ws_loop, exitEvents] at hm
    exact logUnexpected_not_mem_wsIters m r connections (List.mem_flatMap.mpr hm)
  · simp [Driver.http_loop, exitEvents, List.count_cons, List.count_append, hl1]
  · simp [Driver.ws_loop, exitEvents, List.count_cons, List.count_append, hl2]

/-- Witness for C2 at concrete inputs. -/
theorem loop_exit_disconnects_once_witness :
    (Driver.http_loop ⟨"b", .httpRequest 0⟩ [⟨500, []⟩] .cancelled 3).count
      (LoopEvent.disconnect "b") = 1 ∧
    (Driver.ws_loop ⟨"b", .webSocket 0⟩ [[WSFrame.error]] .cancelled 3).count
      (LoopEvent.disconnect "b") = 1 :=
  ⟨(loop_exit_disconnects_once ⟨"b", .httpRequest 0⟩ [⟨500, []⟩] [] .cancelled
      3 3).1,
   (loop_exit_disconnects_once ⟨"b", .webSocket 0⟩ [] [[WSFrame.error]]
      .cancelled 3 3).2.1⟩

/-- C6: the wait between two socket connections in `_ws_loop` is issued
without being awaited (line 227 lacks `await`): the whole run contains no
awaited sleep at all, while the discarded `asyncio.sleep(reconnect_interval)`
coroutine is created once per connection — so reconnection is effectively
immediate, not throttled by `reconnectInterval`. -/
theorem ws_reconnect_wait_unawaited (bot : Bot)
    (connections : List (List WSFrame)) (exit : LoopExit) (r : ℚ) :
    (∀ d, LoopEvent.sleep d ∉ Driver.ws_loop bot connections exit r) ∧
    (Driver.ws_loop bot connections exit r).count
      (LoopEvent.unawaitedSleep r) = connections.length ∧
    (∀ frames, wsOuterIter frames r =
        .wsConnect :: (wsInnerLoop frames ++ [.unawaitedSleep r])) := by
  refine ⟨fun d hm => ?_, ?_, fun frames => rfl⟩
  · simp [Driver.ws_loop, exitEvents] at hm
    rcases hm with hm | hm
    · exact sleep_not_mem_wsIters d r connections (List.mem_flatMap.mpr hm)
    · cases exit <;> simp [exitEvents] at hm
  · have hiter : (connections.flatMap (wsOuterIter · r)).count
        (LoopEvent.unawaitedSleep r) = connections.length := by
      induction connections with
      | nil => simp
      | cons fs rest ih =>
        rw [List.flatMap_cons, List.count_append, unawaited_count_wsOuterIter,
          ih, List.length_cons]
        omega
    cases exit <;>
      simp [Driver.ws_loop, exitEvents, List.count_cons, List.count_append,
        hiter]

/-- Witness for C6 at a concrete input. -/
theorem ws_reconnect_wait_unawaited_witness :
    (Driver.ws_loop ⟨"b", .webSocket 0⟩ [[]] .cancelled 3).count
      (LoopEvent.unawaitedSleep 3) = ([[]] : List (List WSFrame)).length :=
  (ws_reconnect_wait_unawaited ⟨"b", .webSocket 0⟩ [[]] .cancelled 3).2.1

/-- C7: a text frame is dispatched fire-and-forget as its byte encoding and
a binary frame as-is, dispatches being submitted in arrival order; an error
frame is logged, breaks the inner loop (frames after it are never
processed), and the outer loop proceeds to the next connection — the run
continues rather than terminating, and other loops (separate runs) are
untouched. -/
theorem ws_frame_dispatch_behavior (frames pre post : List WSFrame)
    (s : String) (b : Bytes) :
    wsInnerLoop (WSFrame.text s :: frames) =
      LoopEvent.spawnHandleMessage (encodeUTF8 s) :: wsInnerLoop frames ∧
    wsInnerLoop (WSFrame.binary b :: frames) =
      LoopEvent.spawnHandleMessage b :: wsInnerLoop frames ∧
    (WSFrame.error ∉ frames →
        wsInnerLoop frames =
          (frames.filterMap dataDispatch).map LoopEvent.spawnHandleMessage) ∧
    (WSFrame.error ∉ pre →
        wsInnerLoop (pre ++ WSFrame.error :: post) =
          (pre.filterMap dataDispatch).map LoopEvent.spawnHandleMessage
            ++ [LoopEvent.logWsFrameError]) ∧
    (∀ bot conns exit r,
        Driver.ws_loop bot ((pre ++ WSFrame.error :: post) :: conns) exit r =
          .openSession :: (wsOuterIter (pre ++ WSFrame.error :: post) r
            ++ (Driver.ws_loop bot conns exit r).tail)) := by
  refine ⟨rfl, rfl, wsInnerLoop_no_error frames, wsInnerLoop_until_error pre post,
    fun bot conns exit r => ?_⟩
  simp [Driver.ws_loop, List.flatMap_cons, List.append_assoc]

/-- Witness for C7 at concrete inputs. -/
theorem ws_frame_dispatch_behavior_witness :
    wsInnerLoop [WSFrame.binary [1], WSFrame.error, WSFrame.binary [2]] =
      [LoopEvent.spawnHandleMessage [1], LoopEvent.logWsFrameError] := by
  have h := (ws_frame_dispatch_behavior [] [WSFrame.binary [1]]
    [WSFrame.binary [2]] "" []).2.2.2.1 (by decide)
  simpa [dataDispatch] using h

/-- C1: if any establishment in the startup batch raises, `startup` logs the
failure, schedules `shutdown` exactly once, and returns with zero startup
hooks executed. -/
theorem startup_failure_skips_hooks (est : List (Except DriverError Unit))
    (hooks : List (Except String Unit)) (h : gatherRaises est = true) :
    Driver.startup est hooks =
      [StartupEvent.logStartupFailed, StartupEvent.spawnShutdownTask] ∧
    (∀ i, StartupEvent.hookRun i ∉ Driver.startup est hooks) ∧
    (Driver.startup est hooks).count StartupEvent.spawnShutdownTask = 1 ∧
    StartupEvent.logStartupFailed ∈ Driver.startup est hooks := by
  have htrace : Driver.startup est hooks =
      [StartupEvent.logStartupFailed, StartupEvent.spawnShutdownTask] := by
    simp [Driver.startup, h]
  refine ⟨htrace, fun i hm => ?_, ?_, ?_⟩
  · rw [htrace] at hm
    simp at hm
  · rw [htrace]
    decide
  · rw [htrace]
    simp

/-- Witness for C1 at a concrete input: one failed establishment among two,
one registered hook. -/
theorem startup_failure_skips_hooks_witness :
    Driver.startup [Except.ok (), Except.error DriverError.setupFailed]
      [Except.ok ()] =
      [StartupEvent.logStartupFailed, StartupEvent.spawnShutdownTask] :=
  (startup_failure_skips_hooks
    [Except.ok (), Except.error DriverError.setupFailed] [Except.ok ()]
    rfl).1

/-- C8: when every establishment of the batch succeeds, every
establishment-completion event precedes every startup-hook invocation in
the trace; the hooks form one batch whose failure is logged and is
non-fatal (no shutdown is triggered either way). -/
theorem startup_hooks_follow_establishment
    (est : List (Except DriverError Unit))
    (hooks : List (Except String Unit)) (h : gatherRaises est = false) :
    Driver.startup est hooks =
      ((List.range est.length).map StartupEvent.establishEnd)
        ++ (((List.range hooks.length).map StartupEvent.hookRun)
          ++ (if gatherRaises hooks then [StartupEvent.logStartupHookError]
              else [])) ∧
    (∀ ii jj i j,
        (Driver.startup est hooks).get? ii =
          some (StartupEvent.establishEnd i) →
        (Driver.startup est hooks).get? jj = some (StartupEvent.hookRun j) →
        ii < jj) ∧
    StartupEvent.spawnShutdownTask ∉ Driver.startup est hooks ∧
    (gatherRaises hooks = true →
        StartupEvent.logStartupHookError ∈ Driver.startup est hooks) := by
  have htrace : Driver.startup est hooks =
      ((List.range est.length).map StartupEvent.establishEnd)
        ++ (((List.range hooks.length).map StartupEvent.hookRun)
          ++ (if gatherRaises hooks then [StartupEvent.logStartupHookError]
              else [])) := by
    simp [Driver.startup, h, List.append_assoc]
  refine ⟨htrace, fun ii jj i j hii hjj => ?_, fun hm => ?_, fun hg => ?_⟩
  · rw [htrace] at hii hjj
    have h1 : ii <
        ((List.range est.length).map StartupEvent.establishEnd).length := by
      refine pos_lt_length_of_prop
        (P := fun x => ∃ k, x = StartupEvent.establishEnd k) ?_ hii ⟨i, rfl⟩
      intro b hb hP
      rcases hP with ⟨k, rfl⟩
      rcases List.mem_append.mp hb with hb | hb
      · rcases List.mem_map.mp hb with ⟨a, _, ha⟩
        simp at ha
      · revert hb
        split <;> simp
    have h2 : ((List.range est.length).map StartupEvent.establishEnd).length
        ≤ jj := by
      refine length_le_pos_of_prop
        (P := fun x => ∃ k, x = StartupEvent.hookRun k) ?_ hjj ⟨j, rfl⟩
      intro a ha hP
      rcases hP with ⟨k, rfl⟩
      rcases List.mem_map.mp ha with ⟨x, _, hx⟩
      simp at hx
    exact lt_of_lt_of_le h1 h2
  · rw [htrace] at hm
    rcases List.mem_append.mp hm with hm | hm
    · rcases List.mem_map.mp hm with ⟨x, _, hx⟩
      simp at hx
    · rcases List.mem_append.mp hm with hm | hm
      · rcases List.mem_map.mp hm with ⟨x, _, hx⟩
        simp at hx
      · revert hm
        split <;> simp
  · rw [htrace]
    simp [hg]

/-- Witness for C8 at a concrete input: one establishment, one failing
hook. -/
theorem startup_hooks_follow_establishment_witness :
    Driver.startup [Except.ok ()] [Except.error "boom"] =
      [StartupEvent.establishEnd 0, StartupEvent.hookRun 0,
       StartupEvent.logStartupHookError] := by
  have h := (startup_hooks_follow_establishment [Except.ok ()]
    [Except.error "boom"] rfl).1
  simpa using h

/-- C9: establishment raises the adapter-lookup `KeyError`
(`UnknownAdapter`) when the adapter id is absent from the registry, and
`SetupFailed` when the permission check yields a falsy (absent or empty)
`self_id`; on success the bot is inserted into the connected-bots table
keyed by its `self_id` — the `botConnect` event precedes the loop-spawn
event, and the bot is already retrievable from the returned table. -/
theorem establish_error_paths_and_connect_order (adapters : AdapterRegistry)
    (adapter : String) (request : HTTPConnection) (p r : ℚ)
    (bots : BotTable) :
    (adapters.find adapter = none →
        Driver.http_setup adapters adapter request p bots =
          .error .unknownAdapter ∧
        Driver.ws_setup adapters adapter request r bots =
          .error .unknownAdapter) ∧
    (∀ A, adapters.find adapter = some A →
        selfIdTruthy A.check_permission = false →
        Driver.http_setup adapters adapter request p bots =
          .error .setupFailed ∧
        Driver.ws_setup adapters adapter request r bots =
          .error .setupFailed) ∧
    (∀ A self_id, adapters.find adapter = some A →
        A.check_permission = some self_id → self_id.isEmpty = false →
        Driver.http_setup adapters adapter request p bots =
          .ok (bot_connect bots ⟨self_id, request⟩,
               [.botConnect self_id, .spawnHttpLoop self_id p]) ∧
        Driver.ws_setup adapters adapter request r bots =
          .ok (bot_connect bots ⟨self_id, request⟩,
               [.botConnect self_id, .spawnWsLoop self_id r]) ∧
        (bot_connect bots ⟨self_id, request⟩).lookup self_id =
          some ⟨self_id, request⟩) := by
  refine ⟨fun h => ?_, fun A hA hT => ?_, fun A self_id hA hp hne => ?_⟩
  · exact ⟨by simp [Driver.http_setup, h], by simp [Driver.ws_setup, h]⟩
  · rcases hperm : A.check_permission with _ | s
    · exact ⟨by simp [Driver.http_setup, hA, hperm],
        by simp [Driver.ws_setup, hA, hperm]⟩
    · have hs : s.isEmpty = true := by
        rw [hperm] at hT
        simpa [selfIdTruthy] using hT
      exact ⟨by simp [Driver.http_setup, hA, hperm, hs],
        by simp [Driver.ws_setup, hA, hperm, hs]⟩
  · refine ⟨by simp [Driver.http_setup, hA, hp, hne],
      by simp [Driver.ws_setup, hA, hp, hne], ?_⟩
    simp [bot_connect, List.lookup]

/-- Witness for C9 at concrete inputs: a one-entry registry exercising the
unknown-adapter path, the empty-`self_id` path, and the success path. -/
theorem establish_error_paths_and_connect_order_witness :
    Driver.http_setup [("a", ⟨some "bot1"⟩)] "missing"
      (HTTPConnection.httpRequest 0) 3 [] = .error .unknownAdapter ∧
    Driver.http_setup [("a", ⟨some ""⟩)] "a"
      (HTTPConnection.httpRequest 0) 3 [] = .error .setupFailed ∧
    Driver.http_setup [("a", ⟨some "bot1"⟩)] "a"
      (HTTPConnection.httpRequest 0) 3 [] =
      .ok ([("bot1", ⟨"bot1", HTTPConnection.httpRequest 0⟩)],
           [.botConnect "bot1", .spawnHttpLoop "bot1" 3]) :=
  ⟨((establish_error_paths_and_connect_order [("a", ⟨some "bot1"⟩)] "missing"
      (HTTPConnection.httpRequest 0) 3 3 []).1 (by decide)).1,
   ((establish_error_paths_and_connect_order [("a", ⟨some ""⟩)] "a"
      (HTTPConnection.httpRequest 0) 3 3 []).2.1 ⟨some ""⟩ (by decide)
      rfl).1,
   ((establish_error_paths_and_connect_order [("a", ⟨some "bot1"⟩)] "a"
      (HTTPConnection.httpRequest 0) 3 3 []).2.2 ⟨some "bot1"⟩ "bot1"
      (by decide) rfl rfl).1⟩

/-- C4: one `shutdown` invocation first runs the shutdown-hook batch (a
failure only adds a non-fatal log — the trace always continues), then
cancels every other task of the loop and no other (never itself), then
awaits the suppressed join, and halts the scheduler last; cancelling a
finished or already-cancelled task changes nothing, and the resulting task
states cancel exactly the other tasks.  The model's join
(`return_exceptions=True`) and the function's totality reflect that child
exceptions are suppressed and `shutdown` itself never raises. -/
theorem shutdown_hooks_then_cancel_then_stop
    (hookResults : List (Except String Unit)) (allTasks : List Task)
    (current : Nat) :
    (Driver.shutdown hookResults allTasks current).1 =
      (((List.range hookResults.length).map ShutdownEvent.shutdownHookRun)
        ++ (if gatherRaises hookResults then
              [ShutdownEvent.logShutdownHookError] else []))
      ++ (((allTasks.filter fun t => t.tid ≠ current).map
            fun t => ShutdownEvent.cancelRequested t.tid)
        ++ [ShutdownEvent.joinAllSuppressed, ShutdownEvent.loopStop]) ∧
    (∀ ii jj i t,
        (Driver.shutdown hookResults allTasks current).1.get? ii =
          some (ShutdownEvent.shutdownHookRun i) →
        (Driver.shutdown hookResults allTasks current).1.get? jj =
          some (ShutdownEvent.cancelRequested t) → ii < jj) ∧
    (∀ t ∈ allTasks, t.tid ≠ current →
        ShutdownEvent.cancelRequested t.tid ∈
          (Driver.shutdown hookResults allTasks current).1) ∧
    ShutdownEvent.cancelRequested current ∉
      (Driver.shutdown hookResults allTasks current).1 ∧
    (∃ pre, (Driver.shutdown hookResults allTasks current).1 =
        pre ++ [ShutdownEvent.joinAllSuppressed, ShutdownEvent.loopStop]) ∧
    (Driver.shutdown hookResults allTasks current).1.getLast? =
      some ShutdownEvent.loopStop ∧
    (∀ t : Task, t.status ≠ TaskStatus.running → t.cancel = t) ∧
    (Driver.shutdown hookResults allTasks current).2 =
      allTasks.map fun t => if t.tid = current then t else t.cancel := by
  have htrace : (Driver.shutdown hookResults allTasks current).1 =
      (((List.range hookResults.length).map ShutdownEvent.shutdownHookRun)
        ++ (if gatherRaises hookResults then
              [ShutdownEvent.logShutdownHookError] else []))
      ++ (((allTasks.filter fun t => t.tid ≠ current).map
            fun t => ShutdownEvent.cancelRequested t.tid)
        ++ [ShutdownEvent.joinAllSuppressed, ShutdownEvent.loopStop]) := by
    simp [Driver.shutdown, List.append_assoc]
  refine ⟨htrace, fun ii jj i t hii hjj => ?_, fun t ht ht' => ?_, fun hm => ?_,
    ?_, ?_, fun t ht => ?_, by simp [Driver.shutdown]⟩
  · rw [htrace] at hii hjj
    have h1 : ii <
        ((((List.range hookResults.length).map ShutdownEvent.shutdownHookRun)
          ++ (if gatherRaises hookResults then
                [ShutdownEvent.logShutdownHookError] else []))).length := by
      refine pos_lt_length_of_prop
        (P := fun x => ∃ k, x = ShutdownEvent.shutdownHookRun k) ?_ hii
        ⟨i, rfl⟩
      intro b hb hP
      rcases hP with ⟨k, rfl⟩
      rcases List.mem_append.mp hb with hb | hb
      · rcases List.mem_map.mp hb with ⟨a, _, ha⟩
        simp at ha
      · simp at hb
    have h2 :
        ((((List.range hookResults.length).map ShutdownEvent.shutdownHookRun)
          ++ (if gatherRaises hookResults then
                [ShutdownEvent.logShutdownHookError] else []))).length
        ≤ jj := by
      refine length_le_pos_of_prop
        (P := fun x => ∃ k, x = ShutdownEvent.cancelRequested k) ?_ hjj
        ⟨t, rfl⟩
      intro a ha hP
      rcases hP with ⟨k, rfl⟩
      rcases List.mem_append.mp ha with ha | ha
      · rcases List.mem_map.mp ha with ⟨x, _, hx⟩
        simp at hx
      · revert ha
        split <;> simp
    exact lt_of_lt_of_le h1 h2
  · rw [htrace]
    refine List.mem_append.mpr (Or.inr (List.mem_append.mpr (Or.inl ?_)))
    exact List.mem_map.mpr
      ⟨t, List.mem_filter.mpr ⟨ht, by simpa using ht'⟩, rfl⟩
  · rw [htrace] at hm
    rcases List.mem_append.mp hm with hm | hm
    · rcases List.mem_append.mp hm with hm | hm
      · rcases List.mem_map.mp hm with ⟨x, _, hx⟩
        simp at hx
      · revert hm
        split <;> simp
    · rcases List.mem_append.mp hm with hm | hm
      · rcases List.mem_map.mp hm with ⟨u, hu, hx⟩
        have hu' := (List.mem_filter.mp hu).2
        simp at hx hu'
        exact hu' hx
      · simp at hm
  · refine ⟨(((List.range hookResults.length).map
        ShutdownEvent.shutdownHookRun)
      ++ (if gatherRaises hookResults then
            [ShutdownEvent.logShutdownHookError] else []))
      ++ ((allTasks.filter fun t => t.tid ≠ current).map
            fun t => ShutdownEvent.cancelRequested t.tid), ?_⟩
    rw [htrace]
    simp [List.append_assoc]
  · rw [htrace]
    have : (((List.range hookResults.length).map
          ShutdownEvent.shutdownHookRun)
        ++ (if gatherRaises hookResults then
              [ShutdownEvent.logShutdownHookError] else []))
      ++ (((allTasks.filter fun t => t.tid ≠ current).map
            fun t => ShutdownEvent.cancelRequested t.tid)
        ++ [ShutdownEvent.joinAllSuppressed, ShutdownEvent.loopStop]) =
      ((((List.range hookResults.length).map ShutdownEvent.shutdownHookRun)
        ++ (if gatherRaises hookResults then
              [ShutdownEvent.logShutdownHookError] else []))
      ++ (((allTasks.filter fun t => t.tid ≠ current).map
            fun t => ShutdownEvent.cancelRequested t.tid)
        ++ [ShutdownEvent.joinAllSuppressed])) ++ [ShutdownEvent.loopStop] := by
      simp [List.append_assoc]
    rw [this, List.getLast?_concat]
  · rcases t with ⟨tid, st⟩
    cases st with
    | running => exact absurd rfl ht
    | finished => rfl
    | cancelled => rfl

/-- Witness for C4 at concrete inputs: one failing hook, one running task,
one finished task, the current task id 0. -/
theorem shutdown_hooks_then_cancel_then_stop_witness :
    ShutdownEvent.cancelRequested 1 ∈
      (Driver.shutdown [Except.error "boom"]
        [⟨0, .running⟩, ⟨1, .finished⟩] 0).1 ∧
    Task.cancel ⟨1, .finished⟩ = (⟨1, .finished⟩ : Task) :=
  ⟨(shutdown_hooks_then_cancel_then_stop [Except.error "boom"]
      [⟨0, .running⟩, ⟨1, .finished⟩] 0).2.2.1 ⟨1, .finished⟩ (by decide)
      (by decide),
   (shutdown_hooks_then_cancel_then_stop [Except.error "boom"]
      [⟨0, .running⟩, ⟨1, .finished⟩] 0).2.2.2.2.2.2.1 ⟨1, .finished⟩
      (by decide)⟩

/-- C3 (refuting evidence): `shutdown` has no started-guard (its body opens
with `# TODO: shutdown`), so when a second invocation starts while the
first awaits its hook-batch gather, the registered shutdown hook batch runs
in BOTH invocations — a double effect — even though the first invocation's
sweep then cancels the second (which therefore never performs a second
sweep), so the scheduler is still stopped exactly once and no
double-cancellation error arises.  With one registered hook and the
interleaving `[0, 1, 0, 1]`, the hook runs twice and `loop.stop` happens
once. -/
theorem shutdown_second_invocation_reruns_hooks :
    shutdownRaceTrace 1 =
      [ShutdownEvent.shutdownHookRun 0, ShutdownEvent.shutdownHookRun 0,
       ShutdownEvent.cancelRequested 1, ShutdownEvent.joinAllSuppressed,
       ShutdownEvent.loopStop] ∧
    (shutdownRaceTrace 1).count (ShutdownEvent.shutdownHookRun 0) = 2 ∧
    (shutdownRaceTrace 1).count ShutdownEvent.loopStop = 1 := by
  decide

end Aiohttp
